import Mathlib

/-!
Verification of the authentication-negotiation layer of the mythic-sdk-go
client library: JWT reclassification of the APIToken configuration field
performed in NewClient (pkg/mythic/client.go, inserted by fix_client.py),
and the getMeIdentity resolver with its Bearer fallback
(pkg/mythic/auth.go, inserted by fix_getme.py).

The network and the JSON decoder are external collaborators; they are
modelled as oracle parameters (a function from request URL and header set
to an attempt outcome, and a function from a response body to a parse
result). The resolver itself is embedded faithfully from the Go source,
including the order of its error returns and the lastStatus/lastBody
bookkeeping.
-/

namespace MythicSDK

/-- Configuration fields consumed by the authentication layer:
ServerURL (may carry a scheme prefix), the SSL flag, the opaque-token
field APIToken and the bearer-token field AccessToken. -/
structure Config where
  ServerURL : String
  SSL : Bool
  APIToken : String
  AccessToken : String
deriving DecidableEq

/-- Embedding of strings.HasPrefix from the Go standard library: p is a
prefix of s, tested on the underlying character sequences. -/
def hasPrefix (p s : String) : Bool :=
  List.isPrefixOf p.data s.data

/-- Embedding of the JWT-reclassification block inserted into NewClient by
fix_client.py: if config.APIToken is non-empty and has prefix "eyJ",
move it into config.AccessToken and clear config.APIToken; otherwise the
configuration is untouched. -/
def normalizeConfig (c : Config) : Config :=
  if c.APIToken ≠ "" ∧ hasPrefix "eyJ" c.APIToken then
    { c with AccessToken := c.APIToken, APIToken := "" }
  else c

/-- Header sets are small string-to-string associations; the Go code uses
map[string]string with at most one entry per scheme. -/
abbrev HeaderSet := List (String × String)

/-- Modelled from the spec: getAuthHeaders lives in pkg/mythic/auth.go,
which is not among the patched sources; spec section 4.2 gives its
precedence on the normalized configuration: a non-empty bearer-token
field yields the Authorization Bearer header, else a non-empty
opaque-token field yields the apitoken header, else the scheme is empty. -/
def getAuthHeaders (c : Config) : HeaderSet :=
  if c.AccessToken ≠ "" then [("Authorization", "Bearer " ++ c.AccessToken)]
  else if c.APIToken ≠ "" then [("apitoken", c.APIToken)]
  else []

/-- Modelled from the spec: stripScheme lives outside the patched sources;
the spec says the host is the configured server URL with any existing
scheme prefix stripped. -/
def stripScheme (s : String) : String :=
  if hasPrefix "https://" s then s.drop 8
  else if hasPrefix "http://" s then s.drop 7
  else s

/-- Identity endpoint URL built by getMeIdentity: scheme starts as https
and is downgraded to http when the SSL flag is unset, then formatted as
scheme://host/me over the stripped server URL. -/
def meURL (c : Config) : String :=
  let scheme := if !c.SSL then "http" else "https"
  scheme ++ "://" ++ stripScheme c.ServerURL ++ "/me"

/-- Ordered attempt list built by getMeIdentity: the primary header set
from getAuthHeaders, then, when config.APIToken is non-empty, a fallback
set sending the opaque token as an Authorization Bearer header. -/
def attempts (c : Config) : List HeaderSet :=
  [getAuthHeaders c] ++
    (if c.APIToken ≠ "" then
      [[("Authorization", "Bearer " ++ c.APIToken)]]
    else [])

/-- Outcome of one network attempt, as seen by the resolver loop:
request construction failed, the transport call failed, reading the body
failed, or a response arrived with a status code and a body. -/
inductive AttemptOutcome where
  | reqError : AttemptOutcome
  | doError : AttemptOutcome
  | readError : AttemptOutcome
  | response : Nat → String → AttemptOutcome
deriving DecidableEq

/-- Result of json.Unmarshal of a 200 body into the struct with the
user_id field: either a decode error, or an integer user_id (Go leaves
the field at zero when it is absent from the body). -/
inductive ParseResult where
  | parseError : ParseResult
  | ok : Int → ParseResult
deriving DecidableEq

/-- Errors getMeIdentity can return, each corresponding to one WrapError
call site in the Go function; authFailed carries the status code and the
body text interpolated into its message. -/
inductive MeError where
  | requestFailed : MeError
  | transportFailed : MeError
  | readFailed : MeError
  | parseFailed : MeError
  | invalidResponse : MeError
  | authFailed : Nat → String → MeError
deriving DecidableEq

/-- Oracle for the network: given the request URL and the headers applied,
what the attempt produced. -/
abbrev Net := String → HeaderSet → AttemptOutcome

/-- Oracle for json.Unmarshal on a response body. -/
abbrev Parse := String → ParseResult

/-- Loop body of getMeIdentity over the remaining attempts, threading the
lastStatus and lastBody variables exactly as the Go for-loop does, and
additionally recording the (url, headers) pair of every attempt entered.
When the list is exhausted the Go code returns ErrAuthenticationFailed
wrapped with the last status and body. -/
def runAttempts (net : Net) (parse : Parse) (url : String) :
    List HeaderSet → Nat → String → (Except MeError Int × List (String × HeaderSet))
  | [], lastStatus, lastBody =>
    (Except.error (MeError.authFailed lastStatus lastBody), [])
  | hs :: rest, _lastStatus, _lastBody =>
    match net url hs with
    | AttemptOutcome.reqError => (Except.error MeError.requestFailed, [(url, hs)])
    | AttemptOutcome.doError => (Except.error MeError.transportFailed, [(url, hs)])
    | AttemptOutcome.readError => (Except.error MeError.readFailed, [(url, hs)])
    | AttemptOutcome.response status body =>
      if status = 200 then
        match parse body with
        | ParseResult.parseError => (Except.error MeError.parseFailed, [(url, hs)])
        | ParseResult.ok uid =>
          if uid = 0 then (Except.error MeError.invalidResponse, [(url, hs)])
          else (Except.ok uid, [(url, hs)])
      else
        let r := runAttempts net parse url rest status body
        (r.1, (url, hs) :: r.2)

/-- Embedding of getMeIdentity from fix_getme.py: build the endpoint URL
and the attempt list from the configuration, then run the loop with
lastStatus and lastBody at their Go zero values. The second component is
the trace of attempts actually entered. -/
def getMeIdentity (c : Config) (net : Net) (parse : Parse) :
    Except MeError Int × List (String × HeaderSet) :=
  runAttempts net parse (meURL c) (attempts c) 0 ""

/-- Concrete configuration whose APIToken is JWT-shaped. -/
def cJwtW : Config :=
  { ServerURL := "mythic.example.com", SSL := true, APIToken := "eyJab", AccessToken := "" }

/-- Concrete configuration with a surviving opaque token. -/
def cOpaqueW : Config :=
  { ServerURL := "h", SSL := true, APIToken := "tok", AccessToken := "" }

/-- Concrete configuration with both token fields populated, with distinct
values. -/
def cDualW : Config :=
  { ServerURL := "h", SSL := false, APIToken := "t2", AccessToken := "eyJx" }

/-- Concrete configuration with no credentials. -/
def cHostW : Config :=
  { ServerURL := "mythic.example.com", SSL := true, APIToken := "", AccessToken := "" }

/-- Network oracle answering 200 to every attempt. -/
def netOkW : Net := fun _ _ => AttemptOutcome.response 200 "good"

/-- Network oracle failing every attempt at the transport layer. -/
def netDoErrW : Net := fun _ _ => AttemptOutcome.doError

/-- Network oracle rejecting the apitoken scheme with 401 and anything
else with 403. -/
def netAllFailW : Net := fun _ hs =>
  if hs = [("apitoken", "tok")] then AttemptOutcome.response 401 "unauth"
  else AttemptOutcome.response 403 "denied"

/-- Parse oracle extracting user_id 0 from every body. -/
def parseZeroW : Parse := fun _ => ParseResult.ok 0

/-- Parse oracle extracting user_id 42 from every body. -/
def parse42W : Parse := fun _ => ParseResult.ok 42

/-- Parse oracle extracting a negative user_id from every body. -/
def parseNegW : Parse := fun _ => ParseResult.ok (-5)

/-- Trace entries of the resolver loop always carry the URL the loop was
built with: it is computed once, before the loop. -/
lemma runAttempts_trace_url (net : Net) (parse : Parse) (url : String) :
    ∀ (l : List HeaderSet) (s0 : Nat) (b0 : String) (p : String × HeaderSet),
      p ∈ (runAttempts net parse url l s0 b0).2 → p.1 = url := by
  intro l
  induction l with
  | nil =>
    intro s0 b0 p hp
    simp [runAttempts] at hp
  | cons hs rest ih =>
    intro s0 b0 p hp
    simp only [runAttempts] at hp
    split at hp
    · simp at hp; simp [hp]
    · simp at hp; simp [hp]
    · simp at hp; simp [hp]
    · split at hp
      · split at hp
        · simp at hp; simp [hp]
        · split at hp
          · simp at hp; simp [hp]
          · simp at hp; simp [hp]
      · simp at hp
        rcases hp with hp | hp
        · simp [hp]
        · exact ih _ _ p hp

/-- C1: normalization moves the APIToken value into AccessToken and clears
APIToken exactly when the value is non-empty and has the three-character
prefix eyJ; in every other case the configuration is unchanged in all
fields. -/
theorem normalizeConfig_classifies (c : Config) :
    (c.APIToken ≠ "" ∧ hasPrefix "eyJ" c.APIToken →
      normalizeConfig c =
        { ServerURL := c.ServerURL, SSL := c.SSL,
          APIToken := "", AccessToken := c.APIToken }) ∧
    (¬ (c.APIToken ≠ "" ∧ hasPrefix "eyJ" c.APIToken) →
      normalizeConfig c = c) := by
  constructor
  · intro h
    simp [normalizeConfig, h]
  · intro h
    simp [normalizeConfig, h]

/-- Witness for C1 at a concrete JWT-shaped configuration. -/
theorem normalizeConfig_classifies_witness :
    normalizeConfig cJwtW =
      { ServerURL := "mythic.example.com", SSL := true,
        APIToken := "", AccessToken := "eyJab" } :=
  (normalizeConfig_classifies cJwtW).1 (by decide)

/-- C7: normalization is idempotent; a cleared opaque-token field cannot
re-trigger reclassification. -/
theorem normalizeConfig_idem (c : Config) :
    normalizeConfig (normalizeConfig c) = normalizeConfig c := by
  by_cases h : c.APIToken ≠ "" ∧ hasPrefix "eyJ" c.APIToken
  · simp [normalizeConfig, h]
  · simp [normalizeConfig, h]

/-- C2: the attempt list carries a fallback scheme exactly when the
opaque-token field is non-empty at resolution time; the fallback is the
single Authorization Bearer header built from the opaque token, the same
value the primary apitoken scheme carries when the bearer field is
empty. -/
theorem attempts_fallback (c : Config) :
    ((attempts c).length = 2 ↔ c.APIToken ≠ "") ∧
    (c.APIToken ≠ "" →
      attempts c =
        [getAuthHeaders c, [("Authorization", "Bearer " ++ c.APIToken)]]) ∧
    (c.APIToken = "" → attempts c = [getAuthHeaders c]) ∧
    (c.APIToken ≠ "" → c.AccessToken = "" →
      getAuthHeaders c = [("apitoken", c.APIToken)]) := by
  refine ⟨?_, ?_, ?_, ?_⟩
  · by_cases h : c.APIToken = "" <;> simp [attempts, h]
  · intro h; simp [attempts, h]
  · intro h; simp [attempts, h]
  · intro h ha; simp [getAuthHeaders, h, ha]

/-- Witness for C2 at a concrete opaque-token configuration. -/
theorem attempts_fallback_witness :
    attempts cOpaqueW =
      [[("apitoken", "tok")], [("Authorization", "Bearer tok")]] := by
  have h := attempts_fallback cOpaqueW
  rw [h.2.1 (by decide), h.2.2.2 (by decide) rfl]
  rfl

/-- C9: with both token fields populated the attempt list has exactly two
entries, the primary Bearer header built from the bearer token and the
fallback Bearer header built from the (possibly different) opaque
token. -/
theorem attempts_dual_tokens (c : Config)
    (ha : c.AccessToken ≠ "") (ho : c.APIToken ≠ "") :
    attempts c =
      [[("Authorization", "Bearer " ++ c.AccessToken)],
       [("Authorization", "Bearer " ++ c.APIToken)]] := by
  simp [attempts, getAuthHeaders, ha, ho]

/-- Witness for C9 at a configuration carrying two distinct tokens. -/
theorem attempts_dual_tokens_witness :
    attempts cDualW =
      [[("Authorization", "Bearer eyJx")], [("Authorization", "Bearer t2")]] := by
  rw [attempts_dual_tokens cDualW (by decide) (by decide)]
  rfl

/-- C8: every attempt of a resolution uses the single endpoint URL, which
is https://host/me when the SSL flag is set and http://host/me otherwise,
with host the server URL stripped of any existing scheme prefix. -/
theorem meURL_resolution (c : Config) :
    meURL c =
      (if c.SSL then "https" else "http") ++ "://" ++
        stripScheme c.ServerURL ++ "/me" ∧
    (∀ (net : Net) (parse : Parse) (p : String × HeaderSet),
      p ∈ (getMeIdentity c net parse).2 → p.1 = meURL c) ∧
    (c.ServerURL = "mythic.example.com" → c.SSL = true →
      meURL c = "https://mythic.example.com/me") := by
  refine ⟨?_, ?_, ?_⟩
  · cases h : c.SSL <;> simp [meURL, h]
  · intro net parse p hp
    exact runAttempts_trace_url net parse (meURL c) (attempts c) 0 "" p hp
  · intro h1 h2
    simp [meURL, h1, h2, stripScheme, hasPrefix]

/-- Witness for C8 at the spec scenario configuration. -/
theorem meURL_resolution_witness :
    meURL cHostW = "https://mythic.example.com/me" :=
  (meURL_resolution cHostW).2.2 rfl rfl

/-- C3: a 200 response whose parsed user_id is zero (also what an absent
field decodes to) aborts the resolution with the invalid-response error
after the single primary attempt, for every configuration, fallback or
not; likewise a 200 body that fails to decode aborts with the parse
error, so the fallback is never triggered by response content. -/
theorem getMe_invalid_response_fatal (c : Config) (net : Net) (parse : Parse)
    (body : String)
    (hnet : net (meURL c) (getAuthHeaders c) = AttemptOutcome.response 200 body) :
    (parse body = ParseResult.ok 0 →
      getMeIdentity c net parse =
        (Except.error MeError.invalidResponse, [(meURL c, getAuthHeaders c)])) ∧
    (parse body = ParseResult.parseError →
      getMeIdentity c net parse =
        (Except.error MeError.parseFailed, [(meURL c, getAuthHeaders c)])) := by
  constructor <;> intro hp <;>
    simp [getMeIdentity, attempts, runAttempts, hnet, hp]

/-- Witness for C3: user_id 0 on a configuration that does have a fallback
scheme available. -/
theorem getMe_invalid_response_fatal_witness :
    getMeIdentity cOpaqueW netOkW parseZeroW =
      (Except.error MeError.invalidResponse,
        [(meURL cOpaqueW, getAuthHeaders cOpaqueW)]) :=
  (getMe_invalid_response_fatal cOpaqueW netOkW parseZeroW "good" rfl).1 rfl

/-- C4: request-construction, transport and body-read failures abort the
resolution immediately with the corresponding fatal error, at the primary
attempt and at the fallback attempt alike, and a second attempt is
entered only after a non-success status on the primary. -/
theorem getMe_transport_fatal (c : Config) (net : Net) (parse : Parse) :
    (net (meURL c) (getAuthHeaders c) = AttemptOutcome.reqError →
      getMeIdentity c net parse =
        (Except.error MeError.requestFailed, [(meURL c, getAuthHeaders c)])) ∧
    (net (meURL c) (getAuthHeaders c) = AttemptOutcome.doError →
      getMeIdentity c net parse =
        (Except.error MeError.transportFailed, [(meURL c, getAuthHeaders c)])) ∧
    (net (meURL c) (getAuthHeaders c) = AttemptOutcome.readError →
      getMeIdentity c net parse =
        (Except.error MeError.readFailed, [(meURL c, getAuthHeaders c)])) ∧
    (∀ s b, c.APIToken ≠ "" →
      net (meURL c) (getAuthHeaders c) = AttemptOutcome.response s b →
      s ≠ 200 →
      net (meURL c) [("Authorization", "Bearer " ++ c.APIToken)] =
        AttemptOutcome.doError →
      getMeIdentity c net parse =
        (Except.error MeError.transportFailed,
          [(meURL c, getAuthHeaders c),
           (meURL c, [("Authorization", "Bearer " ++ c.APIToken)])])) ∧
    (2 ≤ (getMeIdentity c net parse).2.length →
      ∃ s b, net (meURL c) (getAuthHeaders c) = AttemptOutcome.response s b ∧
        s ≠ 200) := by
  refine ⟨?_, ?_, ?_, ?_, ?_⟩
  · intro h; simp [getMeIdentity, attempts, runAttempts, h]
  · intro h; simp [getMeIdentity, attempts, runAttempts, h]
  · intro h; simp [getMeIdentity, attempts, runAttempts, h]
  · intro s b hapi h1 hs hfb
    simp [getMeIdentity, attempts, runAttempts, hapi, h1, hs, hfb]
  · intro hlen
    cases hnet : net (meURL c) (getAuthHeaders c) with
    | reqError => simp [getMeIdentity, attempts, runAttempts, hnet] at hlen
    | doError => simp [getMeIdentity, attempts, runAttempts, hnet] at hlen
    | readError => simp [getMeIdentity, attempts, runAttempts, hnet] at hlen
    | response s b =>
      refine ⟨s, b, rfl, ?_⟩
      intro hs
      subst hs
      cases hp : parse b with
      | parseError =>
        simp [getMeIdentity, attempts, runAttempts, hnet, hp] at hlen
      | ok uid =>
        by_cases hu : uid = 0
        · simp [getMeIdentity, attempts, runAttempts, hnet, hp, hu] at hlen
        · simp [getMeIdentity, attempts, runAttempts, hnet, hp, hu] at hlen

/-- Witness for C4: a transport failure on the primary attempt of a
configuration that has a fallback available. -/
theorem getMe_transport_fatal_witness :
    getMeIdentity cOpaqueW netDoErrW parse42W =
      (Except.error MeError.transportFailed,
        [(meURL cOpaqueW, getAuthHeaders cOpaqueW)]) :=
  (getMe_transport_fatal cOpaqueW netDoErrW parse42W).2.1 rfl

/-- C5: when every attempt returns a non-success status the resolver fails
with the authentication error carrying exactly the last attempt's status
and body: the primary's when there is no fallback, the fallback's when
there is one. -/
theorem getMe_auth_failed_last (c : Config) (net : Net) (parse : Parse)
    (s1 : Nat) (b1 : String)
    (h1 : net (meURL c) (getAuthHeaders c) = AttemptOutcome.response s1 b1)
    (hs1 : s1 ≠ 200) :
    (c.APIToken = "" →
      getMeIdentity c net parse =
        (Except.error (MeError.authFailed s1 b1),
          [(meURL c, getAuthHeaders c)])) ∧
    (∀ s2 b2, c.APIToken ≠ "" →
      net (meURL c) [("Authorization", "Bearer " ++ c.APIToken)] =
        AttemptOutcome.response s2 b2 →
      s2 ≠ 200 →
      getMeIdentity c net parse =
        (Except.error (MeError.authFailed s2 b2),
          [(meURL c, getAuthHeaders c),
           (meURL c, [("Authorization", "Bearer " ++ c.APIToken)])])) := by
  constructor
  · intro h
    simp [getMeIdentity, attempts, runAttempts, h, h1, hs1]
  · intro s2 b2 hapi h2 hs2
    simp [getMeIdentity, attempts, runAttempts, hapi, h1, hs1, h2, hs2]

/-- Witness for C5: primary 401 with body unauth, fallback 403 with body
denied; the final error carries 403 and denied, not the primary pair. -/
theorem getMe_auth_failed_last_witness :
    getMeIdentity cOpaqueW netAllFailW parse42W =
      (Except.error (MeError.authFailed 403 "denied"),
        [(meURL cOpaqueW, getAuthHeaders cOpaqueW),
         (meURL cOpaqueW, [("Authorization", "Bearer tok")])]) := by
  have h := (getMe_auth_failed_last cOpaqueW netAllFailW parse42W 401 "unauth"
    rfl (by decide)).2 403 "denied" (by decide) rfl (by decide)
  rw [h]
  rfl

/-- C6: a 200 response decoding to a nonzero user_id makes the resolution
succeed with that identity after the single attempt that received it; no
fallback request follows a successful primary attempt. -/
theorem getMe_success_first (c : Config) (net : Net) (parse : Parse)
    (body : String) (uid : Int)
    (hnet : net (meURL c) (getAuthHeaders c) = AttemptOutcome.response 200 body)
    (hp : parse body = ParseResult.ok uid) (hu : uid ≠ 0) :
    getMeIdentity c net parse =
      (Except.ok uid, [(meURL c, getAuthHeaders c)]) := by
  simp [getMeIdentity, attempts, runAttempts, hnet, hp, hu]

/-- Witness for C6: the spec scenario user_id 42, on a configuration that
does have a fallback available. -/
theorem getMe_success_first_witness :
    getMeIdentity cOpaqueW netOkW parse42W =
      (Except.ok 42, [(meURL cOpaqueW, getAuthHeaders cOpaqueW)]) :=
  getMe_success_first cOpaqueW netOkW parse42W "good" 42 rfl rfl (by decide)

/-- C10: the user_id validity check rejects only zero, so a 200 response
decoding to a negative user_id is returned as a valid identity. -/
theorem getMe_negative_identity (c : Config) (net : Net) (parse : Parse)
    (body : String) (uid : Int) (hneg : uid < 0)
    (hnet : net (meURL c) (getAuthHeaders c) = AttemptOutcome.response 200 body)
    (hp : parse body = ParseResult.ok uid) :
    (getMeIdentity c net parse).1 = Except.ok uid := by
  have hu : uid ≠ 0 := by omega
  simp [getMeIdentity, attempts, runAttempts, hnet, hp, hu]

/-- Witness for C10: user_id -5 is accepted as an identity. -/
theorem getMe_negative_identity_witness :
    (getMeIdentity cOpaqueW netOkW parseNegW).1 = Except.ok (-5) :=
  getMe_negative_identity cOpaqueW netOkW parseNegW "good" (-5)
    (by decide) rfl rfl

end MythicSDK
